import Mathlib

/-!
Verification development for `zoptilib.py` (the `Zopti` helper class).

The Python source is shallowly embedded: the mutable `Zopti` object becomes
an explicit state record (`ZoptiState`), every method becomes a function
returning the new state together with an optional raised exception (or an
`Except` value when the method cannot mutate state before raising), and the
host runtime's clips become a symbolic term language (`Clip`) whose
colorspace and frame-count semantics are modelled from the spec's
description of the host runtime.
-/

set_option maxHeartbeats 1000000

/-- Python exceptions raised by the script: `NameError`, `ValueError`,
`KeyError` (from `self.params[metric]` on a missing key) and `IndexError`
(from `data[0]` on an empty list). -/
inductive PyErr where
  | nameError (msg : String)
  | valueError (msg : String)
  | keyError (key : String)
  | indexError
deriving DecidableEq

/-- Values stored in a per-metric parameter bag (Python dict values). -/
inductive ParamVal where
  | pbool (b : Bool)
  | pint (n : Int)
  | pstr (s : String)
deriving DecidableEq

/-- First-match lookup in an insertion-ordered association list
(Python `d[k]` / `k in d`). -/
def dlookup {κ V : Type} [DecidableEq κ] (d : List (κ × V)) (k : κ) : Option V :=
  match d with
  | [] => none
  | kv :: rest => if kv.1 = k then some kv.2 else dlookup rest k

/-- Python `d[k] = v`: replace the value in place when the key exists,
append the pair otherwise (insertion order is preserved). -/
def dset {κ V : Type} [DecidableEq κ] (d : List (κ × V)) (k : κ) (v : V) : List (κ × V) :=
  if d.any (fun kv => kv.1 = k) then
    d.map (fun kv => if kv.1 = k then (k, v) else kv)
  else d ++ [(k, v)]

/-- Python `d.update(e)`: set every pair of `e` into `d` in order. -/
def dupdate {κ V : Type} [DecidableEq κ] (d e : List (κ × V)) : List (κ × V) :=
  e.foldl (fun acc kv => dset acc kv.1 kv.2) d

/-- A Python dict mapping parameter names to values. -/
def ParamBag : Type := List (String × ParamVal)

/-- The argument of `addParams`: either an actual dict or any non-dict
value (the `type(params) is dict` check only distinguishes these). -/
inductive PyParam where
  | pdict (d : List (String × ParamVal))
  | nonDict
deriving DecidableEq

/-- Color families of the host runtime (`vs.RGB`, `vs.YUV`, `vs.GRAY`). -/
inductive ColorFamily where
  | yuv
  | rgb
  | gray
deriving DecidableEq

/-- The RGB pixel formats appearing in `toRGB`'s `formats` table. -/
inductive RGBFormat where
  | rgb24
  | rgb27
  | rgb30
  | rgb48
  | rgbs
deriving DecidableEq

/-- The `formats` dict of `toRGB`, keyed by `3*bits_per_component`. -/
def rgbFormats (k : Nat) : Option RGBFormat :=
  if k = 24 then some RGBFormat.rgb24
  else if k = 27 then some RGBFormat.rgb27
  else if k = 30 then some RGBFormat.rgb30
  else if k = 48 then some RGBFormat.rgb48
  else if k = 96 then some RGBFormat.rgbs
  else none

/-- Symbolic clips: source clips plus every host-runtime operation the
script applies (`std.SetFrameProp`, `core.resize.Bicubic`, the external
metric library calls, `std.FrameEval` and `core.vmaf.VMAF`). -/
inductive Clip where
  | source (family : ColorFamily) (frames : Nat)
  | setFrameProp (c : Clip) (prop : String) (intval : Nat)
  | resizeBicubic (c : Clip) (format : Option RGBFormat) (matrix_in_s : String)
      (dither_type : String) (transfer_in_s : Option String) (transfer_s : Option String)
  | metricCall (fname : String) (a b : Clip) (kwargs : List (String × ParamVal))
  | frameEval (c : Clip) (prop_src : List Clip)
  | vmafCall (a b : Clip) (model : Nat) (log_path : String) (ssim : Bool)

/-- Modelled from the spec: the host runtime owns colorspace primitives.
`resize.Bicubic` with an RGB target format yields an RGB clip; property
setting, per-frame metric filters and `FrameEval` keep the colorspace of
the clip they decorate. -/
def colorFamily : Clip → ColorFamily
  | Clip.source f _ => f
  | Clip.setFrameProp c _ _ => colorFamily c
  | Clip.resizeBicubic c fmt _ _ _ _ =>
      match fmt with
      | some _ => ColorFamily.rgb
      | none => colorFamily c
  | Clip.metricCall _ a _ _ => colorFamily a
  | Clip.frameEval c _ => colorFamily c
  | Clip.vmafCall a _ _ _ _ => colorFamily a

/-- Modelled from the spec: every host-runtime operation used here
preserves the frame count of the clip it decorates. -/
def numFrames : Clip → Nat
  | Clip.source _ n => n
  | Clip.setFrameProp c _ _ => numFrames c
  | Clip.resizeBicubic c _ _ _ _ _ => numFrames c
  | Clip.metricCall _ a _ _ => numFrames a
  | Clip.frameEval c _ => numFrames c
  | Clip.vmafCall a _ _ _ _ => numFrames a

/-- `self.valid_metrics`. -/
def valid_metrics : List String :=
  ["time", "ssim", "gmsd", "mdsi", "butteraugli", "vmaf", "wadiqam"]

/-- `self.supported_with_vmaf`: metrics readable from the vmaf output. -/
def supported_with_vmaf : List String := ["time", "ssim"]

/-- The initial `self.params` table built in `__init__`. -/
def initialParams : List (String × List (String × ParamVal)) :=
  [("ssim", [("downsample", ParamVal.pbool false)]),
   ("gmsd", [("downsample", ParamVal.pbool false)]),
   ("mdsi", [("down_scale", ParamVal.pint 1)]),
   ("wadiqam", [("use_cuda", ParamVal.pbool false)])]

/-- The state of a `Zopti` object.  `start_time` is not represented: the
elapsed runtime enters the embedding as an explicit parameter of the
per-frame callback. -/
structure ZoptiState where
  output_file : String
  vmaf_model : Nat
  params : List (String × List (String × ParamVal))
  matrix : Option String
  tv_range : Option Bool
  metrics : List String
deriving DecidableEq

/-- The `__init__` body before the optional `addMetrics` call. -/
def mkZopti (output_file : String) (matrix : Option String) (tv_range : Option Bool) : ZoptiState :=
  { output_file := output_file
    vmaf_model := 0
    params := initialParams
    matrix := matrix
    tv_range := tv_range
    metrics := [] }

/-- The NameError message raised by the vmaf-compatibility checks
(`str(list(self.supported_with_vmaf))` rendered as Python renders it). -/
def vmafErrMsg : String :=
  "Only these metrics are supported with vmaf: [\x27time\x27, \x27ssim\x27]"

/-- The NameError message for an unknown metric name. -/
def unknownMetricMsg (metric : String) : String :=
  "Unknown metric \x22" ++ metric ++ "\x22"

/-- `Zopti.addMetric`.  The first component is the object state after the
call returns or after the exception propagates; the second is the raised
exception, if any. -/
def addMetricEx (s : ZoptiState) (metric : String) : ZoptiState × Option PyErr :=
  if metric ∈ valid_metrics then
    if metric = "vmaf" then
      if (s.metrics.toFinset ∩ supported_with_vmaf.toFinset).card ≠ s.metrics.length then
        (s, some (PyErr.nameError vmafErrMsg))
      else ({ s with metrics := s.metrics ++ [metric] }, none)
    else if metric ∉ supported_with_vmaf then
      if "vmaf" ∈ s.metrics then (s, some (PyErr.nameError vmafErrMsg))
      else ({ s with metrics := s.metrics ++ [metric] }, none)
    else ({ s with metrics := s.metrics ++ [metric] }, none)
  else (s, some (PyErr.nameError (unknownMetricMsg metric)))

/-- `Zopti.addMetrics`: add each metric in order, stopping at the first
exception. -/
def addMetricsEx (s : ZoptiState) (metrics : List String) : ZoptiState × Option PyErr :=
  match metrics with
  | [] => (s, none)
  | m :: rest =>
      match addMetricEx s m with
      | (s1, some e) => (s1, some e)
      | (s1, none) => addMetricsEx s1 rest

/-- `Zopti.__init__` including the optional `addMetrics` call (the Python
`if metrics:` guard is equivalent to calling `addMetrics` on the list,
since an empty list adds nothing). -/
def initZopti (output_file : String) (metrics : Option (List String))
    (matrix : Option String) (tv_range : Option Bool) : ZoptiState × Option PyErr :=
  match metrics with
  | none => (mkZopti output_file matrix tv_range, none)
  | some ms => addMetricsEx (mkZopti output_file matrix tv_range) ms

/-- The NameError message raised by `addParams` for a non-dict argument. -/
def paramsErrMsg : String :=
  "The parameters list should look like this: dict(myVar=True, myOtherVar=0.4)"

/-- `Zopti.addParams`.  `self.params[metric]` raises `KeyError` when the
metric has no initial bag. -/
def addParamsEx (s : ZoptiState) (metric : String) (p : PyParam) : ZoptiState × Option PyErr :=
  if metric ∈ valid_metrics then
    match p with
    | PyParam.pdict d =>
        match dlookup s.params metric with
        | some bag => ({ s with params := dset s.params metric (dupdate bag d) }, none)
        | none => (s, some (PyErr.keyError metric))
    | PyParam.nonDict => (s, some (PyErr.nameError paramsErrMsg))
  else (s, some (PyErr.nameError (unknownMetricMsg metric)))

/-- `Zopti.setVMAFModel`. -/
def setVMAFModel (s : ZoptiState) (model : Nat) : ZoptiState :=
  { s with vmaf_model := model }

/-- `Zopti.toRGB`. -/
def toRGB (clip : Clip) (matrix : String) (linear : Bool) (bits_per_component : Nat)
    (tv_range : Option Bool) : Clip :=
  if colorFamily clip ≠ ColorFamily.rgb then
    let format := rgbFormats (3 * bits_per_component)
    let matrix := if matrix = "601" then "470bg" else matrix
    let clip :=
      match tv_range with
      | none => clip
      | some b => Clip.setFrameProp clip "_ColorRange" (if b then 1 else 0)
    let dither := "error_diffusion"
    if ¬ linear then
      Clip.resizeBicubic clip format matrix dither none none
    else
      let transfer_in := if matrix = "470bg" ∨ matrix = "170m" then "601" else "709"
      Clip.resizeBicubic clip format matrix dither (some transfer_in) (some "linear")
  else clip

/-- The NameError message of the local `convertToRGB` helper in `run`. -/
def rgbErrMsg (metric : String) : String :=
  "RGB conversion needed for " ++ metric ++
  " - please specify the color matrix when initializing Zopti (for example matrix=\x27601\x27 or matrix=\x27709\x27)"

/-- The local `convertToRGB` helper defined inside `Zopti.run`. -/
def convertToRGB (metric : String) (clip : Clip) (matrix : Option String)
    (linear : Bool) (bits_per_component : Nat) : Except PyErr Clip :=
  if colorFamily clip = ColorFamily.rgb then Except.ok clip
  else
    match matrix with
    | none => Except.error (PyErr.nameError (rgbErrMsg metric))
    | some m => Except.ok (toRGB clip m linear bits_per_component none)

/-- Per-frame accumulation record (`FrameData`): the metric name and the
insertion-ordered map from frame index to measured value.  Measured values
(Python floats) are modelled as rationals. -/
structure FrameData where
  name : String
  per_frame_data : List (Nat × ℚ)
deriving DecidableEq

/-- The local loop state of `Zopti.run`'s non-vmaf branch: the two clip
variables, the `data` list and the `prop_src` list. -/
structure LoopState where
  clip : Clip
  alt_clip : Clip
  data : List FrameData
  prop_src : List Clip

/-- One iteration of the `for metric in self.metrics:` loop in `run`. -/
def runStep (s : ZoptiState) (st : LoopState) (metric : String) : Except PyErr LoopState :=
  let filter_args := (dlookup s.params metric).getD []
  if metric = "gmsd" then
    let alt := Clip.metricCall "muv.GMSD" st.alt_clip st.clip filter_args
    Except.ok { st with alt_clip := alt, prop_src := [alt],
                        data := st.data ++ [FrameData.mk "gmsd" []] }
  else if metric = "ssim" then
    let alt := Clip.metricCall "muv.SSIM" st.alt_clip st.clip filter_args
    Except.ok { st with alt_clip := alt, prop_src := [alt],
                        data := st.data ++ [FrameData.mk "ssim" []] }
  else if metric = "mdsi" then do
    let c ← convertToRGB "MDSI" st.clip s.matrix false 8
    let a ← convertToRGB "MDSI" st.alt_clip s.matrix false 8
    let alt := Clip.metricCall "muv.MDSI" a c filter_args
    Except.ok { clip := c, alt_clip := alt, prop_src := [alt],
                data := st.data ++ [FrameData.mk "mdsi" []] }
  else if metric = "butteraugli" then do
    let c ← convertToRGB "Butteraugli" st.clip s.matrix false 8
    let a ← convertToRGB "Butteraugli" st.alt_clip s.matrix false 8
    let alt := Clip.metricCall "core.Butteraugli.butteraugli" a c []
    Except.ok { clip := c, alt_clip := alt, prop_src := [alt],
                data := st.data ++ [FrameData.mk "butteraugli" []] }
  else if metric = "wadiqam" then do
    let c ← convertToRGB "wadiqam" st.clip s.matrix false 32
    let a ← convertToRGB "wadiqam" st.alt_clip s.matrix false 32
    let alt := Clip.metricCall "vs_wadiqam.vs_wadiqam" a c filter_args
    Except.ok { clip := c, alt_clip := alt, prop_src := [alt],
                data := st.data ++ [FrameData.mk "wadiqam" []] }
  else if metric = "time" then
    Except.ok { st with data := st.data ++ [FrameData.mk "time" []] }
  else Except.error (PyErr.nameError ("Unknown metric " ++ metric))

/-- The whole metric loop of `run`. -/
def runLoop (s : ZoptiState) (st : LoopState) (metrics : List String) : Except PyErr LoopState :=
  match metrics with
  | [] => Except.ok st
  | m :: rest => do
      let st1 ← runStep s st m
      runLoop s st1 rest

/-- The value `run` produces: either the `FrameEval` graph of the non-vmaf
branch (with the loop state and `total_frames`) or the `core.vmaf.VMAF`
graph of the vmaf branch. -/
inductive RunResult where
  | perFrame (final : Clip) (st : LoopState) (total_frames : Nat)
  | vmafLog (final : Clip)

/-- `Zopti.run` up to the registration of the per-frame callback (the
callback itself is embedded separately as `calcFn`). -/
def run (s : ZoptiState) (clip0 alt0 : Clip) : Except PyErr RunResult :=
  let pr :=
    match s.tv_range with
    | none => (clip0, alt0)
    | some b =>
        (Clip.setFrameProp clip0 "_ColorRange" (if b then 1 else 0),
         Clip.setFrameProp alt0 "_ColorRange" (if b then 1 else 0))
  let clip := pr.1
  let alt_clip := pr.2
  if s.metrics.length = 0 then Except.error (PyErr.valueError "No metrics defined")
  else if "vmaf" ∉ s.metrics then do
    let total_frames := numFrames clip
    let st ← runLoop s { clip := clip, alt_clip := alt_clip, data := [], prop_src := [] } s.metrics
    Except.ok (RunResult.perFrame (Clip.frameEval st.alt_clip st.prop_src) st total_frames)
  else
    let calc_ssim := "ssim" ∈ s.metrics
    Except.ok (RunResult.vmafLog (Clip.vmafCall clip alt_clip s.vmaf_model s.output_file calc_ssim))

/-- `save_per_frame_data`: store the frame's designated property value at
key `n` of the metric's accumulation map.  The frame's property bag
`props` is modelled as a total function, the host runtime guaranteeing the
property's presence on the metric filter's output frames. -/
def save_per_frame_data (n : Nat) (fd : FrameData) (props : String → ℚ) : Except PyErr FrameData :=
  let prop_name :=
    if fd.name = "gmsd" then some "PlaneGMSD"
    else if fd.name = "ssim" then some "PlaneSSIM"
    else if fd.name = "mdsi" then some "FrameMDSI"
    else if fd.name = "butteraugli" then some "_Diff"
    else if fd.name = "wadiqam" then some "Frame_WaDIQaM"
    else if fd.name = "time" then some ""
    else none
  match prop_name with
  | none => Except.error (PyErr.nameError ("Unknown per frame type " ++ fd.name))
  | some pn =>
      if pn ≠ "" then
        Except.ok (FrameData.mk fd.name (dset fd.per_frame_data n (props pn)))
      else Except.ok fd

/-- The `for frame_data in data: save_per_frame_data(...)` loop of `calc`. -/
def saveAll (n : Nat) (props : String → ℚ) : List FrameData → Except PyErr (List FrameData)
  | [] => Except.ok []
  | fd :: rest => do
      let fd1 ← save_per_frame_data n fd props
      let rest1 ← saveAll n props rest
      Except.ok (fd1 :: rest1)

/-- Stand-in for Python's `str` on a measured value. -/
def showQ (q : ℚ) : String := toString q

/-- `sum(frame_data.per_frame_data.values())`. -/
def sumValues (l : List (Nat × ℚ)) : ℚ := (l.map Prod.snd).sum

/-- One `file.write` cell of a per-frame report line: `'0.0; '` for the
time metric, the stored value followed by `'; '` otherwise (`KeyError`
when the frame number is missing from the metric's map). -/
def metricCell (frame_nbr : Nat) (fd : FrameData) : Except PyErr String :=
  if fd.name = "time" then Except.ok "0.0; "
  else
    match dlookup fd.per_frame_data frame_nbr with
    | some info => Except.ok (showQ info ++ "; ")
    | none => Except.error (PyErr.keyError (toString frame_nbr))

/-- The inner `for frame_data in data:` loop of a report line. -/
def rowCells (frame_nbr : Nat) : List FrameData → Except PyErr String
  | [] => Except.ok ""
  | fd :: rest => do
      let c ← metricCell frame_nbr fd
      let r ← rowCells frame_nbr rest
      Except.ok (c ++ r)

/-- One report line: the frame number, `'; '`, the metric cells and a
newline. -/
def frameLine (data : List FrameData) (frame_nbr : Nat) : Except PyErr String := do
  let cells ← rowCells frame_nbr data
  Except.ok (toString frame_nbr ++ "; " ++ cells ++ "\n")

/-- The `for frame in data[0].per_frame_data.items():` loop. -/
def bodyLines (data : List FrameData) : List Nat → Except PyErr String
  | [] => Except.ok ""
  | k :: rest => do
      let line ← frameLine data k
      let r ← bodyLines data rest
      Except.ok (line ++ r)

/-- The cells of the trailing `stop` line: elapsed milliseconds for the
time metric, the sum of per-frame values otherwise. -/
def stopCells (runtime : ℚ) : List FrameData → String
  | [] => ""
  | fd :: rest =>
      (if fd.name = "time" then showQ (runtime * 1000)
       else showQ (sumValues fd.per_frame_data)) ++ " " ++ stopCells runtime rest

/-- The full text written to the output file by `calc`: the per-frame
lines driven by `data[0]`'s map, then the `stop` line. -/
def writeReport (data : List FrameData) (runtime : ℚ) : Except PyErr String :=
  match data with
  | [] => Except.error PyErr.indexError
  | fd0 :: _ => do
      let body ← bodyLines data (fd0.per_frame_data.map Prod.fst)
      Except.ok (body ++ "stop " ++ stopCells runtime data)

/-- The per-frame callback `calc` registered through `FrameEval` (the
callback also returns its clip argument unchanged, which is omitted
here).  The result pairs the updated `data` list with the report text when
this call wrote the output file. -/
def calcFn (n : Nat) (props : String → ℚ) (total_frames : Nat) (runtime : ℚ)
    (data : List FrameData) : Except PyErr (List FrameData × Option String) := do
  let data1 ← saveAll n props data
  match data1 with
  | [] => Except.error PyErr.indexError
  | fd0 :: _ =>
      if fd0.per_frame_data.length = total_frames then do
        let rep ← writeReport data1 runtime
        Except.ok (data1, some rep)
      else Except.ok (data1, none)

/-- Modelled from the spec: the host's lazy evaluation graph visits each
requested frame once, invoking the callback with that frame's property
bag; a later report write overwrites an earlier one (the file is opened
with mode `'w'`). -/
def evalFrames (props : Nat → String → ℚ) (total_frames : Nat) (runtime : ℚ) :
    List FrameData → Option String → List Nat → Except PyErr (List FrameData × Option String)
  | data, written, [] => Except.ok (data, written)
  | data, written, n :: rest => do
      let r ← calcFn n (props n) total_frames runtime data
      evalFrames props total_frames runtime r.1
        (match r.2 with
         | some rep => some rep
         | none => written) rest

/-- The `data` list as `run` builds it for a given metric list: one
`FrameData` per metric, in order, with an empty map. -/
def initData (metrics : List String) : List FrameData :=
  metrics.map (fun m => FrameData.mk m [])

/-- The designated frame property read for each non-time metric. -/
def designatedProps : List (String × String) :=
  [("gmsd", "PlaneGMSD"), ("ssim", "PlaneSSIM"), ("mdsi", "FrameMDSI"),
   ("butteraugli", "_Diff"), ("wadiqam", "Frame_WaDIQaM")]

/-- The designated property name of a metric (`""` when it has none). -/
def propOf (m : String) : String := (dlookup designatedProps m).getD ""

/-- The accumulation map of metric `m` after the host has evaluated frames
`0, ..., j-1` in order. -/
def frameVals (props : Nat → String → ℚ) (m : String) (j : Nat) : List (Nat × ℚ) :=
  (List.range j).map (fun i => (i, props i (propOf m)))

/-- The whole `data` list after the host has evaluated frames
`0, ..., j-1` in order (the time metric's map stays empty). -/
def dataAfter (metrics : List String) (props : Nat → String → ℚ) (j : Nat) : List FrameData :=
  metrics.map (fun m => FrameData.mk m (if m = "time" then [] else frameVals props m j))

/-- Spec description of one cell of a per-frame report line: one
semicolon-terminated value per selected metric, `0.0` for the time
metric. -/
def specCell (n : Nat) (fd : FrameData) : String :=
  (if fd.name = "time" then "0.0" else showQ ((dlookup fd.per_frame_data n).getD 0)) ++ "; "

/-- Spec description of one report line: the frame index followed by the
semicolon-separated metric values. -/
def specLine (data : List FrameData) (n : Nat) : String :=
  toString n ++ "; " ++ String.join (data.map (specCell n)) ++ "\n"

/-- Spec description of one cell of the trailing summary line: the sum of
the metric's per-frame values, or the elapsed time in milliseconds for the
time metric. -/
def specStopCell (runtime : ℚ) (fd : FrameData) : String :=
  (if fd.name = "time" then showQ (runtime * 1000)
   else showQ (sumValues fd.per_frame_data)) ++ " "

/-- Spec description of the whole report: one line per accumulated frame
index plus a final line beginning with `stop `. -/
def specReport (data : List FrameData) (runtime : ℚ) : String :=
  match data with
  | [] => ""
  | fd0 :: _ =>
      String.join ((fd0.per_frame_data.map Prod.fst).map (specLine data)) ++
      "stop " ++ String.join (data.map (specStopCell runtime))

theorem string_foldl_append (l : List String) (a b : String) :
    l.foldl (fun x y => x ++ y) (a ++ b) = a ++ l.foldl (fun x y => x ++ y) b := by
  induction l generalizing b with
  | nil => simp
  | cons c cs ih => simp [List.foldl_cons, String.append_assoc, ih]

theorem join_cons (s : String) (l : List String) :
    String.join (s :: l) = s ++ String.join l := by
  have h := string_foldl_append l s ""
  simp only [String.join, List.foldl_cons]
  simpa using h

theorem dlookup_append {κ V : Type} [DecidableEq κ] (d e : List (κ × V)) (k : κ) :
    dlookup (d ++ e) k = Option.or (dlookup d k) (dlookup e k) := by
  induction d with
  | nil => simp [dlookup]
  | cons kv rest ih =>
      by_cases h : kv.1 = k
      · simp [dlookup, h]
      · simp [dlookup, h, ih]

theorem dlookup_eq_none_of_any_false {κ V : Type} [DecidableEq κ]
    (d : List (κ × V)) (k : κ) (h : d.any (fun kv => kv.1 = k) = false) :
    dlookup d k = none := by
  induction d with
  | nil => rfl
  | cons kv rest ih =>
      simp only [List.any_cons, Bool.or_eq_false_iff] at h
      have h1 : kv.1 ≠ k := by simpa using h.1
      simp [dlookup, h1, ih h.2]

theorem dlookup_eq_none_of_not_mem_keys {κ V : Type} [DecidableEq κ]
    (d : List (κ × V)) (k : κ) (h : k ∉ d.map Prod.fst) :
    dlookup d k = none := by
  induction d with
  | nil => rfl
  | cons kv rest ih =>
      simp only [List.map_cons, List.mem_cons] at h
      push_neg at h
      have h1 : kv.1 ≠ k := fun hk => h.1 hk.symm
      simp [dlookup, h1, ih h.2]

theorem dlookup_dset_self {κ V : Type} [DecidableEq κ] (d : List (κ × V)) (k : κ) (v : V) :
    dlookup (dset d k v) k = some v := by
  unfold dset
  by_cases h : d.any (fun kv => kv.1 = k) = true
  · rw [if_pos h]
    induction d with
    | nil => simp at h
    | cons kv rest ih =>
        by_cases h1 : kv.1 = k
        · simp [dlookup, h1]
        · simp only [List.any_cons, Bool.or_eq_true] at h
          have h2 : rest.any (fun kv => kv.1 = k) = true := by
            rcases h with h | h
            · exact absurd (by simpa using h) h1
            · exact h
          simp [dlookup, h1, ih h2]
  · rw [if_neg h]
    rw [dlookup_append]
    rw [dlookup_eq_none_of_any_false d k (Bool.eq_false_iff.mpr h)]
    simp [dlookup]

theorem dlookup_mapReplace {κ V : Type} [DecidableEq κ] (d : List (κ × V)) (k k2 : κ) (v : V)
    (h : k2 ≠ k) :
    dlookup (d.map (fun kv => if kv.1 = k then (k, v) else kv)) k2 = dlookup d k2 := by
  induction d with
  | nil => rfl
  | cons kv rest ih =>
      by_cases h1 : kv.1 = k
      · have h3 : ¬ (k = k2) := fun hk => h hk.symm
        have h2 : ¬ (kv.1 = k2) := by rw [h1]; exact h3
        simp [dlookup, h1, h2, h3, ih]
      · by_cases h2 : kv.1 = k2 <;> simp [dlookup, h1, h2, ih, h]

theorem dlookup_dset_ne {κ V : Type} [DecidableEq κ] (d : List (κ × V)) (k k2 : κ) (v : V)
    (h : k2 ≠ k) : dlookup (dset d k v) k2 = dlookup d k2 := by
  unfold dset
  by_cases ha : d.any (fun kv => kv.1 = k) = true
  · rw [if_pos ha]
    exact dlookup_mapReplace d k k2 v h
  · rw [if_neg ha]
    rw [dlookup_append]
    cases hd : dlookup d k2 with
    | some v2 => simp
    | none =>
        have h3 : ¬ (k = k2) := fun hk => h hk.symm
        simp [dlookup, h3]

theorem dlookup_dupdate {κ V : Type} [DecidableEq κ] (d e : List (κ × V)) (k : κ)
    (hnd : (e.map Prod.fst).Nodup) :
    dlookup (dupdate d e) k = Option.or (dlookup e k) (dlookup d k) := by
  induction e generalizing d with
  | nil => simp [dupdate, dlookup]
  | cons kv rest ih =>
      simp only [List.map_cons, List.nodup_cons] at hnd
      have hstep : dupdate d (kv :: rest) = dupdate (dset d kv.1 kv.2) rest := rfl
      rw [hstep, ih _ hnd.2]
      by_cases h : kv.1 = k
      · subst h
        rw [dlookup_eq_none_of_not_mem_keys rest kv.1 hnd.1]
        simp [dlookup, dlookup_dset_self]
      · have h2 : k ≠ kv.1 := fun hk => h hk.symm
        simp [dlookup, h, dlookup_dset_ne d kv.1 k kv.2 h2]

/-- C10: `toRGB` treats the matrix string `601` as an alias for `470bg`:
for every clip and every combination of the `linear`,
`bits_per_component` and `tv_range` arguments, `toRGB` with matrix `601`
produces the same result as with matrix `470bg`. -/
theorem zoptilib_C10_matrix601_alias (clip : Clip) (linear : Bool)
    (bits_per_component : Nat) (tv_range : Option Bool) :
    toRGB clip "601" linear bits_per_component tv_range =
      toRGB clip "470bg" linear bits_per_component tv_range := by
  unfold toRGB
  by_cases h : colorFamily clip = ColorFamily.rgb
  · rw [if_neg (not_not_intro h), if_neg (not_not_intro h)]
  · rw [if_pos h, if_pos h]
    rfl

/-- C8: `run` raises `ValueError` reading `No metrics defined` whenever
the metric list is empty, for every combination of the other constructor
arguments (`output_file`, `matrix`, `tv_range`) and every input clip
pair. -/
theorem zoptilib_C8_empty_metrics (s : ZoptiState) (clip0 alt0 : Clip)
    (h : s.metrics = []) :
    run s clip0 alt0 = Except.error (PyErr.valueError "No metrics defined") := by
  simp [run, h]

theorem zoptilib_C8_empty_metrics_witness :
    (mkZopti "results.txt" (some "709") (some true)).metrics = [] ∧
      run (mkZopti "results.txt" (some "709") (some true))
        (Clip.source ColorFamily.yuv 5) (Clip.source ColorFamily.yuv 5) =
        Except.error (PyErr.valueError "No metrics defined") :=
  ⟨rfl, zoptilib_C8_empty_metrics _ _ _ rfl⟩

/-- C9: `addMetric` and `addParams` are atomic on error: whenever either
raises `NameError`, the object state (metric list and every parameter
bag) is exactly what it was before the call. -/
theorem zoptilib_C9_atomic_on_error (s : ZoptiState) (m : String) (p : PyParam) :
    (∀ msg, (addMetricEx s m).2 = some (PyErr.nameError msg) → (addMetricEx s m).1 = s)
    ∧ (∀ msg, (addParamsEx s m p).2 = some (PyErr.nameError msg) → (addParamsEx s m p).1 = s) := by
  constructor
  · intro msg h
    unfold addMetricEx at h ⊢
    split_ifs at h ⊢ <;> simp_all
  · intro msg h
    rcases p with d | _
    · by_cases hm : m ∈ valid_metrics
      · cases hd : dlookup s.params m with
        | some bag => simp [addParamsEx, hm, hd] at h
        | none => simp [addParamsEx, hm, hd]
      · simp [addParamsEx, hm]
    · by_cases hm : m ∈ valid_metrics
      · simp [addParamsEx, hm]
      · simp [addParamsEx, hm]

theorem zoptilib_C9_atomic_witness :
    (addMetricEx (mkZopti "results.txt" none none) "bogus").1 =
      mkZopti "results.txt" none none :=
  (zoptilib_C9_atomic_on_error (mkZopti "results.txt" none none) "bogus" PyParam.nonDict).1
    (unknownMetricMsg "bogus") (by decide)

theorem addMetricEx_ok_state (s : ZoptiState) (m : String)
    (h : (addMetricEx s m).2 = none) :
    (addMetricEx s m).1 = { s with metrics := s.metrics ++ [m] } := by
  unfold addMetricEx at h ⊢
  split_ifs at h ⊢ <;> simp_all

theorem addMetricEx_ok_valid (s : ZoptiState) (m : String)
    (h : (addMetricEx s m).2 = none) : m ∈ valid_metrics := by
  unfold addMetricEx at h
  split_ifs at h with h1 <;> simp_all

theorem addMetricsEx_ok_metrics (ms : List String) :
    ∀ (s s2 : ZoptiState), addMetricsEx s ms = (s2, none) →
      s2.metrics = s.metrics ++ ms := by
  induction ms with
  | nil =>
      intro s s2 h
      simp only [addMetricsEx] at h
      cases h
      simp
  | cons m rest ih =>
      intro s s2 h
      simp only [addMetricsEx] at h
      rcases hstep : addMetricEx s m with ⟨s1, oe⟩
      rw [hstep] at h
      cases oe with
      | some e => simp at h
      | none =>
          have h2 : (addMetricEx s m).2 = none := by rw [hstep]
          have h1 : s1 = { s with metrics := s.metrics ++ [m] } := by
            have := addMetricEx_ok_state s m h2
            rw [hstep] at this
            exact this
          have h3 := ih s1 s2 h
          rw [h3, h1]
          simp

/-- C5: `addMetric(m)` appends `m` to the metric list when `m` is in the
fixed allowed set (subject to the vmaf-compatibility rule) and raises
`NameError` reading `Unknown metric ...` otherwise; `addMetrics` adds its
elements in order, so a successful `addMetrics` extends the stored metric
list by the given list, preserving the given order. -/
theorem zoptilib_C5_metric_validation (s : ZoptiState) (m : String) :
    (m ∉ valid_metrics →
      addMetricEx s m = (s, some (PyErr.nameError (unknownMetricMsg m))))
    ∧ ((addMetricEx s m).2 = none →
        m ∈ valid_metrics ∧ (addMetricEx s m).1.metrics = s.metrics ++ [m])
    ∧ (∀ (ms : List String) (s2 : ZoptiState),
        addMetricsEx s ms = (s2, none) → s2.metrics = s.metrics ++ ms) := by
  refine ⟨?_, ?_, ?_⟩
  · intro h
    unfold addMetricEx
    rw [if_neg h]
  · intro h
    refine ⟨addMetricEx_ok_valid s m h, ?_⟩
    rw [addMetricEx_ok_state s m h]
  · exact fun ms s2 h => addMetricsEx_ok_metrics ms s s2 h

theorem zoptilib_C5_metric_validation_witness :
    addMetricEx (mkZopti "results.txt" none none) "zzz" =
      (mkZopti "results.txt" none none,
       some (PyErr.nameError (unknownMetricMsg "zzz"))) :=
  (zoptilib_C5_metric_validation (mkZopti "results.txt" none none) "zzz").1 (by decide)

theorem inter_card_eq_length_iff (l t : List String) :
    (l.toFinset ∩ t.toFinset).card = l.length ↔
      (l.Nodup ∧ ∀ x ∈ l, x ∈ t) := by
  constructor
  · intro h
    have hsub : l.toFinset ∩ t.toFinset ⊆ l.toFinset := Finset.inter_subset_left
    have h1 : (l.toFinset ∩ t.toFinset).card ≤ l.toFinset.card := Finset.card_le_card hsub
    have h2 : l.toFinset.card ≤ l.length := l.toFinset_card_le
    have h3 : l.toFinset.card = l.length := le_antisymm h2 (h ▸ h1)
    have hdl : l.dedup.length = l.length := by
      rw [← List.card_toFinset]
      exact h3
    have hded : l.dedup = l := List.Sublist.eq_of_length (List.dedup_sublist l) hdl
    have hnd : l.Nodup := (List.dedup_eq_self).mp hded
    have heq : l.toFinset ∩ t.toFinset = l.toFinset :=
      Finset.eq_of_subset_of_card_le hsub (by rw [h, h3])
    refine ⟨hnd, fun x hx => ?_⟩
    have hx1 : x ∈ l.toFinset := List.mem_toFinset.mpr hx
    have hx2 : x ∈ l.toFinset ∩ t.toFinset := by rw [heq]; exact hx1
    exact List.mem_toFinset.mp (Finset.mem_of_mem_inter_right hx2)
  · rintro ⟨hnd, hsub⟩
    have heq : l.toFinset ∩ t.toFinset = l.toFinset := by
      apply Finset.inter_eq_left.mpr
      intro x hx
      exact List.mem_toFinset.mpr (hsub x (List.mem_toFinset.mp hx))
    rw [heq, List.toFinset_card_of_nodup hnd]

/-- C2 (amended): `addMetric` with argument `vmaf` succeeds exactly when
the previously added metrics are pairwise distinct and each VMAF-readable
(in `time`/`ssim`); because the source compares `len(set(metrics) &
set(supported))` with `len(metrics)`, a duplicated VMAF-readable metric
also makes it raise.  Symmetrically, every allowed metric outside the
VMAF-readable set raises `NameError` when `vmaf` is already among the
added metrics. -/
theorem zoptilib_C2_vmaf_compat_amended (s : ZoptiState) :
    ((addMetricEx s "vmaf").2 = none ↔
      (s.metrics.Nodup ∧ ∀ m ∈ s.metrics, m ∈ supported_with_vmaf))
    ∧ ((addMetricEx s "vmaf").2 = none →
        (addMetricEx s "vmaf").1.metrics = s.metrics ++ ["vmaf"])
    ∧ (∀ m, m ∈ valid_metrics → m ∉ supported_with_vmaf → "vmaf" ∈ s.metrics →
        (addMetricEx s m).2 = some (PyErr.nameError vmafErrMsg)) := by
  have hv : "vmaf" ∈ valid_metrics := by decide
  have herr : ∀ (m : String), m ∈ valid_metrics → m ≠ "vmaf" → m ∉ supported_with_vmaf →
      "vmaf" ∈ s.metrics → (addMetricEx s m).2 = some (PyErr.nameError vmafErrMsg) := by
    intro m h1 h2 h3 h4
    unfold addMetricEx
    rw [if_pos h1, if_neg h2, if_pos h3, if_pos h4]
  refine ⟨?_, ?_, ?_⟩
  · by_cases hc : (s.metrics.toFinset ∩ supported_with_vmaf.toFinset).card = s.metrics.length
    · have hr := (inter_card_eq_length_iff s.metrics supported_with_vmaf).mp hc
      have h2 : (addMetricEx s "vmaf").2 = none := by
        unfold addMetricEx
        rw [if_pos hv, if_pos rfl, if_neg (not_not_intro hc)]
      rw [h2]
      exact iff_of_true rfl hr
    · have hr : ¬ (s.metrics.Nodup ∧ ∀ m ∈ s.metrics, m ∈ supported_with_vmaf) :=
        fun hx => hc ((inter_card_eq_length_iff s.metrics supported_with_vmaf).mpr hx)
      have h2 : (addMetricEx s "vmaf").2 = some (PyErr.nameError vmafErrMsg) := by
        unfold addMetricEx
        rw [if_pos hv, if_pos rfl, if_pos hc]
      rw [h2]
      exact iff_of_false (by simp) hr
  · intro h
    rw [addMetricEx_ok_state s "vmaf" h]
  · intro m hm hms hvm
    have hm7 : m = "time" ∨ m = "ssim" ∨ m = "gmsd" ∨ m = "mdsi" ∨ m = "butteraugli"
        ∨ m = "vmaf" ∨ m = "wadiqam" := by
      simpa [valid_metrics] using hm
    rcases hm7 with rfl | rfl | rfl | rfl | rfl | rfl | rfl
    · exact absurd (by decide) hms
    · exact absurd (by decide) hms
    · exact herr _ (by decide) (by decide) (by decide) hvm
    · exact herr _ (by decide) (by decide) (by decide) hvm
    · exact herr _ (by decide) (by decide) (by decide) hvm
    · have hc : (s.metrics.toFinset ∩ supported_with_vmaf.toFinset).card ≠ s.metrics.length := by
        intro hc
        have hr := (inter_card_eq_length_iff s.metrics supported_with_vmaf).mp hc
        exact absurd (hr.2 "vmaf" hvm) (by decide)
      unfold addMetricEx
      rw [if_pos hv, if_pos rfl, if_pos hc]
    · exact herr _ (by decide) (by decide) (by decide) hvm

theorem zoptilib_C2_vmaf_compat_witness :
    "gmsd" ∈ valid_metrics ∧ "gmsd" ∉ supported_with_vmaf ∧
      "vmaf" ∈ ({ mkZopti "results.txt" none none with
                  metrics := ["vmaf"] } : ZoptiState).metrics ∧
      (addMetricEx { mkZopti "results.txt" none none with metrics := ["vmaf"] } "gmsd").2 =
        some (PyErr.nameError vmafErrMsg) :=
  ⟨by decide, by decide, by decide,
   (zoptilib_C2_vmaf_compat_amended _).2.2 "gmsd" (by decide) (by decide) (by decide)⟩

/-- C2 counterexample: after adding `ssim` twice (both calls succeed and
both added metrics are VMAF-readable), `addMetric` with `vmaf`
nevertheless raises, because the duplicate makes `len(set(metrics) &
set(supported))` fall short of `len(metrics)`; this refutes the claim
that `addMetric` with `vmaf` succeeds whenever every previously added
metric is VMAF-readable. -/
theorem zoptilib_C2_duplicate_cex :
    (addMetricEx (mkZopti "results.txt" none none) "ssim").2 = none
    ∧ (addMetricEx (addMetricEx (mkZopti "results.txt" none none) "ssim").1 "ssim").2 = none
    ∧ (∀ m ∈ (addMetricEx (addMetricEx (mkZopti "results.txt" none none) "ssim").1 "ssim").1.metrics,
        m ∈ supported_with_vmaf)
    ∧ (addMetricEx
        (addMetricEx (addMetricEx (mkZopti "results.txt" none none) "ssim").1 "ssim").1
        "vmaf").2 = some (PyErr.nameError vmafErrMsg) := by
  refine ⟨by decide, by decide, by decide, by decide⟩

/-- C7: for every non-time metric, the per-frame callback's
`save_per_frame_data` stores exactly one entry at key `n`, namely the
value of the metric's designated frame property; the time metric's map
receives no entry. -/
theorem zoptilib_C7_per_frame_store (n : Nat) (fd : FrameData) (props : String → ℚ) :
    (∀ name prop, (name, prop) ∈ designatedProps → fd.name = name →
       save_per_frame_data n fd props =
         Except.ok (FrameData.mk fd.name (dset fd.per_frame_data n (props prop)))
       ∧ dlookup (dset fd.per_frame_data n (props prop)) n = some (props prop)
       ∧ ∀ k, k ≠ n → dlookup (dset fd.per_frame_data n (props prop)) k =
           dlookup fd.per_frame_data k)
    ∧ (fd.name = "time" → save_per_frame_data n fd props = Except.ok fd) := by
  obtain ⟨nm, d⟩ := fd
  constructor
  · intro name prop hmem hname
    simp only at hname
    subst hname
    have hm5 : (nm = "gmsd" ∧ prop = "PlaneGMSD") ∨ (nm = "ssim" ∧ prop = "PlaneSSIM")
        ∨ (nm = "mdsi" ∧ prop = "FrameMDSI") ∨ (nm = "butteraugli" ∧ prop = "_Diff")
        ∨ (nm = "wadiqam" ∧ prop = "Frame_WaDIQaM") := by
      simpa [designatedProps, Prod.ext_iff] using hmem
    rcases hm5 with ⟨rfl, rfl⟩ | ⟨rfl, rfl⟩ | ⟨rfl, rfl⟩ | ⟨rfl, rfl⟩ | ⟨rfl, rfl⟩ <;>
      exact ⟨rfl, dlookup_dset_self d n _,
        fun k hk => dlookup_dset_ne d n k _ hk⟩
  · intro h
    simp only at h
    subst h
    rfl

theorem zoptilib_C7_per_frame_store_witness :
    ("ssim", "PlaneSSIM") ∈ designatedProps ∧
      (FrameData.mk "ssim" []).name = "ssim" ∧
      save_per_frame_data 0 (FrameData.mk "ssim" []) (fun _ => 1) =
        Except.ok (FrameData.mk "ssim" (dset [] 0 ((fun _ => (1 : ℚ)) "PlaneSSIM"))) :=
  ⟨by decide, rfl,
   ((zoptilib_C7_per_frame_store 0 (FrameData.mk "ssim" []) (fun _ => 1)).1
     "ssim" "PlaneSSIM" (by decide) rfl).1⟩

/-- C3 (amended): for the metrics given an initial bag
(`ssim`, `gmsd`, `mdsi`, `wadiqam`), `addParams` merges the dict into the
metric's bag, later keys overriding earlier ones and other metrics' bags
unchanged, and `run` passes the bag as the keyword arguments of the
metric's library call; for the allowed metrics without an initial bag
(`time`, `butteraugli`, `vmaf`), `addParams` with a dict raises
`KeyError`; `addParams` raises `NameError` when the metric is not in the
allowed set or the argument is not a dict; `butteraugli`'s library call
receives no keyword arguments. -/
theorem zoptilib_C3_params_amended :
    (∀ (s : ZoptiState) (m : String) (d bag : List (String × ParamVal)),
       m ∈ valid_metrics → dlookup s.params m = some bag →
       addParamsEx s m (PyParam.pdict d) =
         ({ s with params := dset s.params m (dupdate bag d) }, none)
       ∧ dlookup (dset s.params m (dupdate bag d)) m = some (dupdate bag d)
       ∧ (∀ m2, m2 ≠ m →
           dlookup (dset s.params m (dupdate bag d)) m2 = dlookup s.params m2)
       ∧ (∀ k, (d.map Prod.fst).Nodup →
           dlookup (dupdate bag d) k = Option.or (dlookup d k) (dlookup bag k)))
    ∧ (∀ (s : ZoptiState) (m : String) (d : List (String × ParamVal)),
        m ∈ valid_metrics → dlookup s.params m = none →
        addParamsEx s m (PyParam.pdict d) = (s, some (PyErr.keyError m)))
    ∧ (∀ (s : ZoptiState) (m : String) (p : PyParam), m ∉ valid_metrics →
        addParamsEx s m p = (s, some (PyErr.nameError (unknownMetricMsg m))))
    ∧ (∀ (s : ZoptiState) (m : String), m ∈ valid_metrics →
        addParamsEx s m PyParam.nonDict = (s, some (PyErr.nameError paramsErrMsg)))
    ∧ (∀ (s : ZoptiState) (st : LoopState) (name fname : String),
        (name, fname) ∈ ([("gmsd", "muv.GMSD"), ("ssim", "muv.SSIM")] :
          List (String × String)) →
        ∃ st2, runStep s st name = Except.ok st2 ∧
          st2.alt_clip = Clip.metricCall fname st.alt_clip st.clip
            ((dlookup s.params name).getD []))
    ∧ (∀ (s : ZoptiState) (st : LoopState),
        colorFamily st.clip = ColorFamily.rgb →
        colorFamily st.alt_clip = ColorFamily.rgb →
        (∀ name fname, (name, fname) ∈ ([("mdsi", "muv.MDSI"),
            ("wadiqam", "vs_wadiqam.vs_wadiqam")] : List (String × String)) →
          ∃ st2, runStep s st name = Except.ok st2 ∧
            st2.alt_clip = Clip.metricCall fname st.alt_clip st.clip
              ((dlookup s.params name).getD []))
        ∧ ∃ st2, runStep s st "butteraugli" = Except.ok st2 ∧
            st2.alt_clip =
              Clip.metricCall "core.Butteraugli.butteraugli" st.alt_clip st.clip []) := by
  refine ⟨?_, ?_, ?_, ?_, ?_, ?_⟩
  · intro s m d bag hm hd
    refine ⟨by simp [addParamsEx, hm, hd], dlookup_dset_self s.params m (dupdate bag d),
      fun m2 hm2 => dlookup_dset_ne s.params m m2 (dupdate bag d) hm2,
      fun k hnd => dlookup_dupdate bag d k hnd⟩
  · intro s m d hm hd
    simp [addParamsEx, hm, hd]
  · intro s m p hm
    simp [addParamsEx, hm]
  · intro s m hm
    simp [addParamsEx, hm]
  · intro s st name fname hmem
    have h2 : (name = "gmsd" ∧ fname = "muv.GMSD") ∨ (name = "ssim" ∧ fname = "muv.SSIM") := by
      simpa [Prod.ext_iff] using hmem
    rcases h2 with ⟨rfl, rfl⟩ | ⟨rfl, rfl⟩
    · exact ⟨_, rfl, rfl⟩
    · exact ⟨_, rfl, rfl⟩
  · intro s st h1 h2
    have hc1 : ∀ (nm : String) (b : Nat),
        convertToRGB nm st.clip s.matrix false b = Except.ok st.clip := by
      intro nm b
      unfold convertToRGB
      rw [if_pos h1]
    have hc2 : ∀ (nm : String) (b : Nat),
        convertToRGB nm st.alt_clip s.matrix false b = Except.ok st.alt_clip := by
      intro nm b
      unfold convertToRGB
      rw [if_pos h2]
    constructor
    · intro name fname hmem
      have h3 : (name = "mdsi" ∧ fname = "muv.MDSI")
          ∨ (name = "wadiqam" ∧ fname = "vs_wadiqam.vs_wadiqam") := by
        simpa [Prod.ext_iff] using hmem
      rcases h3 with ⟨rfl, rfl⟩ | ⟨rfl, rfl⟩
      · refine ⟨⟨st.clip,
          Clip.metricCall "muv.MDSI" st.alt_clip st.clip ((dlookup s.params "mdsi").getD []),
          st.data ++ [FrameData.mk "mdsi" []],
          [Clip.metricCall "muv.MDSI" st.alt_clip st.clip
            ((dlookup s.params "mdsi").getD [])]⟩, ?_, rfl⟩
        unfold runStep
        simp only [hc1, hc2]
        rfl
      · refine ⟨⟨st.clip,
          Clip.metricCall "vs_wadiqam.vs_wadiqam" st.alt_clip st.clip
            ((dlookup s.params "wadiqam").getD []),
          st.data ++ [FrameData.mk "wadiqam" []],
          [Clip.metricCall "vs_wadiqam.vs_wadiqam" st.alt_clip st.clip
            ((dlookup s.params "wadiqam").getD [])]⟩, ?_, rfl⟩
        unfold runStep
        simp only [hc1, hc2]
        rfl
    · refine ⟨⟨st.clip,
        Clip.metricCall "core.Butteraugli.butteraugli" st.alt_clip st.clip [],
        st.data ++ [FrameData.mk "butteraugli" []],
        [Clip.metricCall "core.Butteraugli.butteraugli" st.alt_clip st.clip []]⟩, ?_, rfl⟩
      unfold runStep
      simp only [hc1, hc2]
      rfl

theorem zoptilib_C3_params_amended_witness :
    "ssim" ∈ valid_metrics ∧
      dlookup (mkZopti "results.txt" none none).params "ssim" =
        some [("downsample", ParamVal.pbool false)] ∧
      addParamsEx (mkZopti "results.txt" none none) "ssim"
          (PyParam.pdict [("downsample", ParamVal.pbool true)]) =
        ({ mkZopti "results.txt" none none with
            params := dset (mkZopti "results.txt" none none).params "ssim"
              (dupdate [("downsample", ParamVal.pbool false)]
                [("downsample", ParamVal.pbool true)]) }, none) :=
  ⟨by decide, by decide,
   ((zoptilib_C3_params_amended).1 (mkZopti "results.txt" none none) "ssim"
     [("downsample", ParamVal.pbool true)] [("downsample", ParamVal.pbool false)]
     (by decide) (by decide)).1⟩

/-- C3 counterexample: `butteraugli` is in the allowed set, yet
`addParams` with a dict raises `KeyError` (leaving the state unchanged)
instead of merging into a configuration bag, refuting the claim for every
metric of the allowed set. -/
theorem zoptilib_C3_butteraugli_cex :
    "butteraugli" ∈ valid_metrics ∧
      addParamsEx (mkZopti "results.txt" none none) "butteraugli"
          (PyParam.pdict [("x", ParamVal.pint 3)]) =
        (mkZopti "results.txt" none none, some (PyErr.keyError "butteraugli")) := by
  refine ⟨by decide, by decide⟩

theorem colorFamily_toRGB (clip : Clip) (mtx : String) (linear : Bool) (b : Nat)
    (tv : Option Bool) (h : colorFamily clip ≠ ColorFamily.rgb)
    (hf : (rgbFormats (3 * b)).isSome = true) :
    colorFamily (toRGB clip mtx linear b tv) = ColorFamily.rgb := by
  obtain ⟨f, hfmt⟩ := Option.isSome_iff_exists.mp hf
  by_cases hl : linear <;> simp [toRGB, h, hl, hfmt, colorFamily]

/-- C4: for every RGB-requiring metric, the `convertToRGB` helper of
`run` passes an already-RGB clip through unconverted, raises `NameError`
naming the metric when the clip is not RGB and no matrix was supplied,
and otherwise converts the clip through `toRGB`, yielding an RGB clip;
accordingly the loop of `run` hands the `mdsi`, `butteraugli` and
`wadiqam` library calls RGB arguments when a matrix is available, and
propagates the `NameError` when the input clip is not RGB and no matrix
was given at initialization. -/
theorem zoptilib_C4_rgb_conversion (metric : String) (clip : Clip) (matrix : Option String)
    (linear : Bool) (bits_per_component : Nat) :
    (colorFamily clip = ColorFamily.rgb →
      convertToRGB metric clip matrix linear bits_per_component = Except.ok clip)
    ∧ (colorFamily clip ≠ ColorFamily.rgb →
        convertToRGB metric clip none linear bits_per_component =
          Except.error (PyErr.nameError (rgbErrMsg metric)))
    ∧ (∀ mtx, colorFamily clip ≠ ColorFamily.rgb →
        convertToRGB metric clip (some mtx) linear bits_per_component =
          Except.ok (toRGB clip mtx linear bits_per_component none)
        ∧ ((rgbFormats (3 * bits_per_component)).isSome = true →
            colorFamily (toRGB clip mtx linear bits_per_component none) = ColorFamily.rgb))
    ∧ (∀ (s : ZoptiState) (st : LoopState) (name disp : String),
        (name, disp) ∈ ([("mdsi", "MDSI"), ("butteraugli", "Butteraugli"),
          ("wadiqam", "wadiqam")] : List (String × String)) →
        (colorFamily st.clip ≠ ColorFamily.rgb → s.matrix = none →
          runStep s st name = Except.error (PyErr.nameError (rgbErrMsg disp)))
        ∧ (∀ mtx, s.matrix = some mtx →
            ∃ st2 fname a2 b2 kw, runStep s st name = Except.ok st2 ∧
              st2.alt_clip = Clip.metricCall fname a2 b2 kw ∧
              colorFamily a2 = ColorFamily.rgb ∧ colorFamily b2 = ColorFamily.rgb)) := by
  refine ⟨?_, ?_, ?_, ?_⟩
  · intro h
    simp [convertToRGB, h]
  · intro h
    simp [convertToRGB, h]
  · intro mtx h
    exact ⟨by simp [convertToRGB, h],
      fun hf => colorFamily_toRGB clip mtx linear bits_per_component none h hf⟩
  · intro s st name disp hmem
    have h3 : (name = "mdsi" ∧ disp = "MDSI") ∨ (name = "butteraugli" ∧ disp = "Butteraugli")
        ∨ (name = "wadiqam" ∧ disp = "wadiqam") := by
      simpa [Prod.ext_iff] using hmem
    have key : ∀ (mtx : String), s.matrix = some mtx → ∀ (c : Clip) (dn : String) (b : Nat),
        (rgbFormats (3 * b)).isSome = true →
        ∃ c2, convertToRGB dn c s.matrix false b = Except.ok c2 ∧
          colorFamily c2 = ColorFamily.rgb := by
      intro mtx hm c dn b hb
      by_cases hcf : colorFamily c = ColorFamily.rgb
      · exact ⟨c, by simp [convertToRGB, hcf], hcf⟩
      · exact ⟨toRGB c mtx false b none, by simp [convertToRGB, hcf, hm],
          colorFamily_toRGB c mtx false b none hcf hb⟩
    rcases h3 with ⟨rfl, rfl⟩ | ⟨rfl, rfl⟩ | ⟨rfl, rfl⟩
    · constructor
      · intro h1 hm
        have hc : convertToRGB "MDSI" st.clip s.matrix false 8 =
            Except.error (PyErr.nameError (rgbErrMsg "MDSI")) := by
          simp [convertToRGB, h1, hm]
        unfold runStep
        simp only [hc]
        rfl
      · intro mtx hm
        obtain ⟨c2, hc1, hr1⟩ := key mtx hm st.clip "MDSI" 8 (by decide)
        obtain ⟨a2, hc2, hr2⟩ := key mtx hm st.alt_clip "MDSI" 8 (by decide)
        refine ⟨⟨c2, Clip.metricCall "muv.MDSI" a2 c2 ((dlookup s.params "mdsi").getD []),
          st.data ++ [FrameData.mk "mdsi" []],
          [Clip.metricCall "muv.MDSI" a2 c2 ((dlookup s.params "mdsi").getD [])]⟩,
          "muv.MDSI", a2, c2, (dlookup s.params "mdsi").getD [], ?_, rfl, hr2, hr1⟩
        unfold runStep
        simp only [hc1, hc2]
        rfl
    · constructor
      · intro h1 hm
        have hc : convertToRGB "Butteraugli" st.clip s.matrix false 8 =
            Except.error (PyErr.nameError (rgbErrMsg "Butteraugli")) := by
          simp [convertToRGB, h1, hm]
        unfold runStep
        simp only [hc]
        rfl
      · intro mtx hm
        obtain ⟨c2, hc1, hr1⟩ := key mtx hm st.clip "Butteraugli" 8 (by decide)
        obtain ⟨a2, hc2, hr2⟩ := key mtx hm st.alt_clip "Butteraugli" 8 (by decide)
        refine ⟨⟨c2, Clip.metricCall "core.Butteraugli.butteraugli" a2 c2 [],
          st.data ++ [FrameData.mk "butteraugli" []],
          [Clip.metricCall "core.Butteraugli.butteraugli" a2 c2 []]⟩,
          "core.Butteraugli.butteraugli", a2, c2, [], ?_, rfl, hr2, hr1⟩
        unfold runStep
        simp only [hc1, hc2]
        rfl
    · constructor
      · intro h1 hm
        have hc : convertToRGB "wadiqam" st.clip s.matrix false 32 =
            Except.error (PyErr.nameError (rgbErrMsg "wadiqam")) := by
          simp [convertToRGB, h1, hm]
        unfold runStep
        simp only [hc]
        rfl
      · intro mtx hm
        obtain ⟨c2, hc1, hr1⟩ := key mtx hm st.clip "wadiqam" 32 (by decide)
        obtain ⟨a2, hc2, hr2⟩ := key mtx hm st.alt_clip "wadiqam" 32 (by decide)
        refine ⟨⟨c2, Clip.metricCall "vs_wadiqam.vs_wadiqam" a2 c2
            ((dlookup s.params "wadiqam").getD []),
          st.data ++ [FrameData.mk "wadiqam" []],
          [Clip.metricCall "vs_wadiqam.vs_wadiqam" a2 c2
            ((dlookup s.params "wadiqam").getD [])]⟩,
          "vs_wadiqam.vs_wadiqam", a2, c2, (dlookup s.params "wadiqam").getD [], ?_, rfl,
          hr2, hr1⟩
        unfold runStep
        simp only [hc1, hc2]
        rfl

theorem zoptilib_C4_rgb_conversion_witness :
    colorFamily (Clip.source ColorFamily.rgb 3) = ColorFamily.rgb ∧
      convertToRGB "MDSI" (Clip.source ColorFamily.rgb 3) none false 8 =
        Except.ok (Clip.source ColorFamily.rgb 3) ∧
      colorFamily (Clip.source ColorFamily.yuv 3) ≠ ColorFamily.rgb ∧
      convertToRGB "MDSI" (Clip.source ColorFamily.yuv 3) none false 8 =
        Except.error (PyErr.nameError (rgbErrMsg "MDSI")) :=
  ⟨rfl,
   (zoptilib_C4_rgb_conversion "MDSI" (Clip.source ColorFamily.rgb 3) none false 8).1 rfl,
   by decide,
   (zoptilib_C4_rgb_conversion "MDSI" (Clip.source ColorFamily.yuv 3) none false 8).2.1
     (by decide)⟩


theorem metricCell_eq_spec (k : Nat) (fd : FrameData)
    (h : fd.name = "time" ∨ (dlookup fd.per_frame_data k).isSome = true) :
    metricCell k fd = Except.ok (specCell k fd) := by
  by_cases ht : fd.name = "time"
  · have he : ("0.0" : String) ++ "; " = "0.0; " := by decide
    simp [metricCell, specCell, ht, he]
  · rcases h with h | h
    · exact absurd h ht
    · obtain ⟨v, hv⟩ := Option.isSome_iff_exists.mp h
      simp [metricCell, specCell, ht, hv]

theorem rowCells_eq_spec (k : Nat) (l : List FrameData)
    (h : ∀ fd ∈ l, fd.name = "time" ∨ (dlookup fd.per_frame_data k).isSome = true) :
    rowCells k l = Except.ok (String.join (l.map (specCell k))) := by
  induction l with
  | nil => simp [rowCells, String.join]
  | cons fd rest ih =>
      rw [List.map_cons, join_cons]
      have h1 := metricCell_eq_spec k fd (h fd (List.mem_cons_self fd rest))
      have h2 := ih (fun fd2 hfd2 => h fd2 (List.mem_cons_of_mem fd hfd2))
      simp only [rowCells, h1, h2]
      rfl

theorem frameLine_eq_spec (data : List FrameData) (k : Nat)
    (h : ∀ fd ∈ data, fd.name = "time" ∨ (dlookup fd.per_frame_data k).isSome = true) :
    frameLine data k = Except.ok (specLine data k) := by
  simp only [frameLine, rowCells_eq_spec k data h]
  simp [specLine, String.append_assoc]
  rfl

theorem bodyLines_eq_spec (data : List FrameData) (ks : List Nat)
    (h : ∀ k ∈ ks, ∀ fd ∈ data, fd.name = "time" ∨ (dlookup fd.per_frame_data k).isSome = true) :
    bodyLines data ks = Except.ok (String.join (ks.map (specLine data))) := by
  induction ks with
  | nil => simp [bodyLines, String.join]
  | cons k rest ih =>
      rw [List.map_cons, join_cons]
      have h1 := frameLine_eq_spec data k (h k (List.mem_cons_self k rest))
      have h2 := ih (fun k2 hk2 => h k2 (List.mem_cons_of_mem k hk2))
      simp only [bodyLines, h1, h2]
      rfl

theorem stopCells_eq_spec (runtime : ℚ) (l : List FrameData) :
    stopCells runtime l = String.join (l.map (specStopCell runtime)) := by
  induction l with
  | nil => simp [stopCells, String.join]
  | cons fd rest ih =>
      rw [List.map_cons, join_cons]
      simp [stopCells, specStopCell, ih]

theorem writeReport_eq_spec (fd0 : FrameData) (rest : List FrameData) (runtime : ℚ)
    (h : ∀ fd ∈ fd0 :: rest, ∀ k ∈ fd0.per_frame_data.map Prod.fst,
      fd.name = "time" ∨ (dlookup fd.per_frame_data k).isSome = true) :
    writeReport (fd0 :: rest) runtime = Except.ok (specReport (fd0 :: rest) runtime) := by
  have hb := bodyLines_eq_spec (fd0 :: rest) (fd0.per_frame_data.map Prod.fst)
    (fun k hk fd hfd => h fd hfd k hk)
  simp only [writeReport, hb]
  simp [specReport, stopCells_eq_spec, String.append_assoc]
  rfl

/-- C6: when the report is written (non-vmaf path), its text is exactly
the spec's shape: one line per accumulated frame index holding the index
and one semicolon-separated value per selected metric in order (`0.0` for
the time metric), then a final line beginning with `stop ` holding, per
selected metric in order, the sum of its per-frame values or the elapsed
milliseconds for the time metric (the hypothesis states that every
non-time metric has a stored value for every accumulated frame index,
which the per-frame callback guarantees). -/
theorem zoptilib_C6_report_shape (fd0 : FrameData) (rest : List FrameData) (runtime : ℚ)
    (h : ∀ fd ∈ fd0 :: rest, ∀ k ∈ fd0.per_frame_data.map Prod.fst,
      fd.name = "time" ∨ (dlookup fd.per_frame_data k).isSome = true) :
    writeReport (fd0 :: rest) runtime = Except.ok (specReport (fd0 :: rest) runtime) :=
  writeReport_eq_spec fd0 rest runtime h

theorem zoptilib_C6_report_shape_witness :
    (∀ fd ∈ [FrameData.mk "ssim" [(0, (1 : ℚ)), (1, 2)], FrameData.mk "time" []],
      ∀ k ∈ (FrameData.mk "ssim" [(0, (1 : ℚ)), (1, 2)]).per_frame_data.map Prod.fst,
      fd.name = "time" ∨ (dlookup fd.per_frame_data k).isSome = true) ∧
    writeReport [FrameData.mk "ssim" [(0, (1 : ℚ)), (1, 2)], FrameData.mk "time" []] 2 =
      Except.ok
        (specReport [FrameData.mk "ssim" [(0, (1 : ℚ)), (1, 2)], FrameData.mk "time" []] 2) :=
  ⟨by decide,
   zoptilib_C6_report_shape (FrameData.mk "ssim" [(0, (1 : ℚ)), (1, 2)])
     [FrameData.mk "time" []] 2 (by decide)⟩

theorem frameVals_length (props : Nat → String → ℚ) (m : String) (j : Nat) :
    (frameVals props m j).length = j := by
  simp [frameVals]

theorem frameVals_succ (props : Nat → String → ℚ) (m : String) (j : Nat) :
    frameVals props m (j + 1) = frameVals props m j ++ [(j, props j (propOf m))] := by
  simp [frameVals, List.range_succ]

theorem frameVals_keys (props : Nat → String → ℚ) (m : String) (j : Nat) :
    (frameVals props m j).map Prod.fst = List.range j := by
  unfold frameVals
  rw [List.map_map]
  exact List.map_id (List.range j)

theorem frameVals_fresh (props : Nat → String → ℚ) (m : String) (j : Nat) :
    ((frameVals props m j).any (fun kv => kv.1 = j)) = false := by
  rw [List.any_eq_false]
  intro x hx
  simp only [frameVals, List.mem_map, List.mem_range] at hx
  obtain ⟨i, hi, rfl⟩ := hx
  simp
  omega

theorem dset_frameVals (props : Nat → String → ℚ) (m : String) (j : Nat) (v : ℚ) :
    dset (frameVals props m j) j v = frameVals props m j ++ [(j, v)] := by
  have h := frameVals_fresh props m j
  unfold dset
  rw [if_neg (by simp [h])]

theorem dlookup_frameVals (props : Nat → String → ℚ) (m : String) (j k : Nat) (h : k < j) :
    dlookup (frameVals props m j) k = some (props k (propOf m)) := by
  induction j with
  | zero => omega
  | succ j ih =>
      rw [frameVals_succ, dlookup_append]
      by_cases hk : k < j
      · rw [ih hk]
        simp [Option.or]
      · have hkj : k = j := by omega
        subst hkj
        rw [dlookup_eq_none_of_any_false _ _ (frameVals_fresh props m k)]
        simp [dlookup, Option.or]

theorem save_valid_name (n : Nat) (m : String) (d : List (Nat × ℚ)) (props : String → ℚ)
    (hm : m ∈ valid_metrics) (hv : m ≠ "vmaf") :
    save_per_frame_data n (FrameData.mk m d) props =
      Except.ok (FrameData.mk m
        (if m = "time" then d else dset d n (props (propOf m)))) := by
  have hm7 : m = "time" ∨ m = "ssim" ∨ m = "gmsd" ∨ m = "mdsi" ∨ m = "butteraugli"
      ∨ m = "vmaf" ∨ m = "wadiqam" := by
    simpa [valid_metrics] using hm
  rcases hm7 with rfl | rfl | rfl | rfl | rfl | rfl | rfl
  · rfl
  · rfl
  · rfl
  · rfl
  · rfl
  · exact absurd rfl hv
  · rfl

theorem saveAll_dataAfter (metrics : List String) (props : Nat → String → ℚ) (j : Nat)
    (h : ∀ m ∈ metrics, m ∈ valid_metrics ∧ m ≠ "vmaf") :
    saveAll j (props j) (dataAfter metrics props j) =
      Except.ok (dataAfter metrics props (j + 1)) := by
  induction metrics with
  | nil => rfl
  | cons m rest ih =>
      obtain ⟨hm, hv⟩ := h m (List.mem_cons_self m rest)
      have hrest := ih (fun m2 hm2 => h m2 (List.mem_cons_of_mem m hm2))
      by_cases ht : m = "time"
      · subst ht
        show saveAll j (props j)
            (FrameData.mk "time" [] :: dataAfter rest props j) =
          Except.ok (FrameData.mk "time" [] :: dataAfter rest props (j + 1))
        have hsave : save_per_frame_data j (FrameData.mk "time" []) (props j) =
            Except.ok (FrameData.mk "time" []) := rfl
        simp only [saveAll, hsave, hrest]
        rfl
      · have hsave : save_per_frame_data j (FrameData.mk m (frameVals props m j)) (props j) =
            Except.ok (FrameData.mk m (dset (frameVals props m j) j ((props j) (propOf m)))) := by
          have h0 := save_valid_name j m (frameVals props m j) (props j) hm hv
          rw [if_neg ht] at h0
          exact h0
        show saveAll j (props j)
            (FrameData.mk m (if m = "time" then [] else frameVals props m j) ::
              dataAfter rest props j) =
          Except.ok (FrameData.mk m (if m = "time" then [] else frameVals props m (j + 1)) ::
            dataAfter rest props (j + 1))
        rw [if_neg ht, if_neg ht]
        simp only [saveAll, hsave, hrest]
        simp [dset_frameVals, frameVals_succ, Except.bind]
        rfl

theorem ebind_ok {ε α β : Type} (a : α) (f : α → Except ε β) :
    (Except.ok a : Except ε α) >>= f = f a := rfl

theorem ebind_err {ε α β : Type} (e : ε) (f : α → Except ε β) :
    (Except.error e : Except ε α) >>= f = Except.error e := rfl

theorem dataAfter_cov (m0 : String) (rest : List String) (props : Nat → String → ℚ) (j : Nat)
    (_ht : m0 ≠ "time") :
    ∀ fd ∈ FrameData.mk m0 (frameVals props m0 j) :: dataAfter rest props j,
      ∀ k ∈ (FrameData.mk m0 (frameVals props m0 j)).per_frame_data.map Prod.fst,
        fd.name = "time" ∨ (dlookup fd.per_frame_data k).isSome = true := by
  intro fd hfd k hk
  simp only [frameVals_keys, List.mem_range] at hk
  rcases List.mem_cons.mp hfd with rfl | hfd2
  · right
    simp [dlookup_frameVals props m0 j k hk]
  · simp only [dataAfter, List.mem_map] at hfd2
    obtain ⟨m, hm, rfl⟩ := hfd2
    by_cases htm : m = "time"
    · left
      exact htm
    · right
      simp only [if_neg htm]
      simp [dlookup_frameVals props m j k hk]

theorem calcFn_dataAfter (m0 : String) (rest : List String) (props : Nat → String → ℚ)
    (runtime : ℚ) (N j : Nat)
    (h : ∀ m ∈ m0 :: rest, m ∈ valid_metrics ∧ m ≠ "vmaf") (ht : m0 ≠ "time") :
    calcFn j (props j) N runtime (dataAfter (m0 :: rest) props j) =
      Except.ok (dataAfter (m0 :: rest) props (j + 1),
        if j + 1 = N
        then some (specReport (dataAfter (m0 :: rest) props (j + 1)) runtime)
        else none) := by
  have hsa := saveAll_dataAfter (m0 :: rest) props j h
  have hD : dataAfter (m0 :: rest) props (j + 1) =
      FrameData.mk m0 (frameVals props m0 (j + 1)) :: dataAfter rest props (j + 1) := by
    simp [dataAfter, ht]
  unfold calcFn
  rw [hsa, hD]
  have hlen : (frameVals props m0 (j + 1)).length = j + 1 := frameVals_length props m0 (j + 1)
  by_cases hN : j + 1 = N
  · subst hN
    have hw := writeReport_eq_spec (FrameData.mk m0 (frameVals props m0 (j + 1)))
      (dataAfter rest props (j + 1)) runtime (dataAfter_cov m0 rest props (j + 1) ht)
    simp [ebind_ok, hlen, hw]
  · simp [ebind_ok, hlen, hN]

theorem evalFrames_dataAfter (m0 : String) (rest : List String) (props : Nat → String → ℚ)
    (runtime : ℚ) (N : Nat)
    (h : ∀ m ∈ m0 :: rest, m ∈ valid_metrics ∧ m ≠ "vmaf") (ht : m0 ≠ "time") :
    ∀ (k j : Nat) (w : Option String), j + k = N → 0 < k →
    evalFrames props N runtime (dataAfter (m0 :: rest) props j) w (List.range' j k) =
      Except.ok (dataAfter (m0 :: rest) props N,
        some (specReport (dataAfter (m0 :: rest) props N) runtime)) := by
  intro k
  induction k with
  | zero => intro j w hjk h0; omega
  | succ k ih =>
      intro j w hjk h0
      have hstep := calcFn_dataAfter m0 rest props runtime N j h ht
      rw [List.range'_succ]
      rcases Nat.eq_zero_or_pos k with hk0 | hkpos
      · subst hk0
        have hN : j + 1 = N := by omega
        rw [if_pos hN] at hstep
        subst hN
        simp [evalFrames, hstep, ebind_ok]
      · have hN : j + 1 ≠ N := by omega
        rw [if_neg hN] at hstep
        have hrec := ih (j + 1) w (by omega) hkpos
        simp only [evalFrames, hstep, ebind_ok]
        exact hrec

/-- C1 (amended): in the non-vmaf path, the per-frame callback writes the
report exactly when the accumulation map of the FIRST `FrameData` entry
(`data[0]`) reaches the clip's total frame count after this call;
consequently, when the first selected metric is not `time`, after the
host has evaluated every frame of an N-frame clip (N ≥ 1) the report has
been written; the original claim's trigger, phrased over the frame
accumulator of any selected metric, holds only for `data[0]`. -/
theorem zoptilib_C1_report_trigger_amended :
    (∀ (n total : Nat) (props : String → ℚ) (runtime : ℚ) (data d2 : List FrameData)
        (rep : Option String),
        calcFn n props total runtime data = Except.ok (d2, rep) →
        (rep.isSome = true ↔
          ∃ fd0 t, d2 = fd0 :: t ∧ fd0.per_frame_data.length = total))
    ∧ (∀ (m0 : String) (rest : List String) (props : Nat → String → ℚ) (runtime : ℚ)
        (N : Nat),
        (∀ m ∈ m0 :: rest, m ∈ valid_metrics ∧ m ≠ "vmaf") → m0 ≠ "time" → 0 < N →
        evalFrames props N runtime (initData (m0 :: rest)) none (List.range N) =
          Except.ok (dataAfter (m0 :: rest) props N,
            some (specReport (dataAfter (m0 :: rest) props N) runtime))) := by
  constructor
  · intro n total props runtime data d2 rep h
    cases hsa : saveAll n props data with
    | error e =>
        have hcalc : calcFn n props total runtime data = Except.error e := by
          unfold calcFn
          rw [hsa]
          rfl
        rw [hcalc] at h
        simp at h
    | ok d1 =>
        cases d1 with
        | nil =>
            have hcalc : calcFn n props total runtime data =
                Except.error PyErr.indexError := by
              unfold calcFn
              rw [hsa]
              rfl
            rw [hcalc] at h
            simp at h
        | cons fd0 t =>
            have hcalc : calcFn n props total runtime data =
                if fd0.per_frame_data.length = total
                then writeReport (fd0 :: t) runtime >>=
                  fun rep2 => Except.ok (fd0 :: t, some rep2)
                else Except.ok (fd0 :: t, none) := by
              unfold calcFn
              rw [hsa]
              rfl
            rw [hcalc] at h
            by_cases hlen : fd0.per_frame_data.length = total
            · rw [if_pos hlen] at h
              cases hw : writeReport (fd0 :: t) runtime with
              | error e =>
                  rw [hw] at h
                  simp [ebind_err] at h
              | ok repstr =>
                  rw [hw] at h
                  simp only [ebind_ok] at h
                  injection h with h2
                  injection h2 with h3 h4
                  subst h3
                  subst h4
                  exact iff_of_true rfl ⟨fd0, t, rfl, hlen⟩
            · rw [if_neg hlen] at h
              injection h with h2
              injection h2 with h3 h4
              subst h3
              subst h4
              refine iff_of_false (by simp) ?_
              rintro ⟨fd0x, tx, heq, hlenx⟩
              injection heq with h5 h6
              subst h5
              exact hlen hlenx
  · intro m0 rest props runtime N h ht hN
    have h0 : dataAfter (m0 :: rest) props 0 = initData (m0 :: rest) := by
      simp [dataAfter, initData, frameVals]
    rw [← h0, List.range_eq_range']
    exact evalFrames_dataAfter m0 rest props runtime N h ht N 0 none (by omega) hN

theorem zoptilib_C1_report_trigger_witness :
    ((∀ m ∈ ("ssim" :: ("time" :: [])), m ∈ valid_metrics ∧ m ≠ "vmaf")
      ∧ ("ssim" : String) ≠ "time" ∧ 0 < 2) ∧
    evalFrames (fun _ _ => 1) 2 0 (initData ["ssim", "time"]) none (List.range 2) =
      Except.ok (dataAfter ["ssim", "time"] (fun _ _ => 1) 2,
        some (specReport (dataAfter ["ssim", "time"] (fun _ _ => 1) 2) 0)) :=
  ⟨⟨by decide, by decide, by decide⟩,
   zoptilib_C1_report_trigger_amended.2 "ssim" ["time"] (fun _ _ => 1) 0 2
     (by decide) (by decide) (by decide)⟩

/-- C1 counterexample: with the configured metric list
`['time', 'ssim']` (no `vmaf`) on a 1-frame clip, after the host has
evaluated every frame the `ssim` accumulator is complete (its size equals
the total frame count), yet no report has been written, because the
trigger only inspects `data[0]`, which is the time metric's always-empty
map. -/
theorem zoptilib_C1_time_first_cex :
    evalFrames (fun _ _ => 1) 1 0 (initData ["time", "ssim"]) none (List.range 1) =
      Except.ok ([FrameData.mk "time" [], FrameData.mk "ssim" [(0, 1)]], none)
    ∧ (FrameData.mk "ssim" [(0, (1 : ℚ))]).per_frame_data.length = 1 := by
  constructor
  · rfl
  · rfl
